import Mathlib

/-!
Shallow embedding of the sms_service OTP server.

The embedding models:
- the phone-shape regexes of the handler package (an exact local-format
  check and a start-anchored, end-unanchored check used by SendSMS),
- the Redis-backed code store as a function from keys to optional values,
  with explicit fault injection for GET / SETEX / DEL failures and for
  random-generation failure,
- the HTTP handlers OTP, Compare and SendSMS as pure functions from the
  parsed request body, the store state, the injected faults and the random
  draw to an HTTP outcome, the next store state and the list of Socket.IO
  events broadcast during the call,
- the Socket.IO connection registry (client map with busy flags) and its
  connect / disconnect / sended-event / broadcast transitions.
-/

/-- Payload of the Socket.IO event broadcast to all workers. -/
structure OTPEvent where
  phone : String
  pass : String
deriving DecidableEq, Repr

/-- A broadcast event: event name together with its payload. -/
abbrev Event := String × OTPEvent

/-- Result of a handler call, as sent back over HTTP.
badRequest is HTTP 400, serverError is HTTP 500, the ok constructors are
HTTP 200 bodies: okTrue is the plain success body, okFalse is a
non-success body with a message, okSend is the richer SendSMS success
body. -/
inductive HttpOutcome where
  | badRequest (message : String)
  | serverError (message : String)
  | okFalse (message : String)
  | okTrue
  | okSend (message phone pass : String)
deriving DecidableEq, Repr

/-- The Redis code store, modelled as a partial map from keys to values. -/
def Store := String → Option String

/-- The key under which the code for a phone is stored: the fixed
string prefix of the handler package concatenated with the raw phone. -/
def otpKey (phone : String) : String := "otp:" ++ phone

/-- Redis SETEX on the model store (the TTL is not modelled; expiry shows
up as the key becoming absent). -/
def storeSet (s : Store) (k v : String) : Store :=
  fun q => if q = k then some v else s q

/-- Redis DEL on the model store. -/
def storeDel (s : Store) (k : String) : Store :=
  fun q => if q = k then none else s q

/-- The store with no entries at all. -/
def emptyStore : Store := fun _ => none

/-- Fault injection for the external collaborators of one handler call:
an error from Redis GET, a failure of the random generator, an error from
Redis SETEX, and an error from Redis DEL. -/
structure Faults where
  getErr : Option String
  genErr : Bool
  setErr : Option String
  delErr : Option String

/-- The fault-free execution environment. -/
def noFaults : Faults := ⟨none, false, none, none⟩

/-- Faults in which only the Redis SETEX (persist) step fails. -/
def setFailFaults (msg : String) : Faults := ⟨none, false, some msg, none⟩

/-- Decimal digit character for a digit value. -/
def digitChar (d : Nat) : Char := Char.ofNat (48 + d)

/-- Decimal digit characters of a number, most significant first, with
explicit fuel so the recursion is structural. -/
def natToDigitsAux : Nat → Nat → List Char
  | _, 0 => []
  | 0, _ + 1 => []
  | f + 1, n + 1 => natToDigitsAux f ((n + 1) / 10) ++ [digitChar ((n + 1) % 10)]

/-- Decimal string of a natural number, as Sprintf with a d verb prints it. -/
def natDecimalString (n : Nat) : String :=
  if n = 0 then "0" else String.mk (natToDigitsAux n n)

/-- The code built by generateOTP from the uniform random draw n taken in
[0, 90000): the decimal string of n + 10000. -/
def generateOTP (n : Nat) : String := natDecimalString (n + 10000)

/-- The templated human-readable message embedding the code. -/
def otpMessage (code : String) : String := "Siziň aktiwasiýa koduňyz " ++ code

/-- Exact local phone shape: the anchored regex of the handler package,
one 6, one digit in 1..5, then exactly six digits, nothing else. -/
def localExactMatch : List Char → Bool
  | '6' :: c2 :: rest =>
      decide ('1' ≤ c2) && decide (c2 ≤ '5') && (rest.length == 6)
        && rest.all Char.isDigit
  | _ => false

/-- The phonePattern check used by the OTP handler. -/
def phonePatternMatch (s : String) : Bool := localExactMatch s.data

/-- Start-anchored local phone shape: one 6, one digit in 1..5, then at
least six digits; further characters are not constrained because the
sendSMSPattern regex has no end anchor. -/
def localStartMatch : List Char → Bool
  | '6' :: c2 :: rest =>
      decide ('1' ≤ c2) && decide (c2 ≤ '5') && decide (6 ≤ rest.length)
        && (rest.take 6).all Char.isDigit
  | _ => false

/-- The sendSMSPattern check used by the SendSMS handler: an optional
country prefix +993 followed by the start-anchored local shape. -/
def sendSMSPatternMatch (s : String) : Bool :=
  localStartMatch s.data ||
    (match s.data with
     | '+' :: '9' :: '9' :: '3' :: rest => localStartMatch rest
     | _ => false)

/-- The phone shape the specification ascribes to SendSMS: an optional
+993 country prefix followed by the exact local shape and nothing else.
This definition follows the words of the specification and is compared
against sendSMSPatternMatch, the shape the code actually checks. -/
def specSendSMSShape (s : String) : Bool :=
  localExactMatch s.data ||
    (match s.data with
     | '+' :: '9' :: '9' :: '3' :: rest => localExactMatch rest
     | _ => false)

/-- The OTP handler (POST /otp). body is the parsed request body (none
when JSON binding fails), n is the random draw. Returns the HTTP outcome,
the store after the call and the broadcast events of the call, in order. -/
def OTP (f : Faults) (store : Store) (body : Option String) (n : Nat) :
    HttpOutcome × Store × List Event :=
  match body with
  | none => (.badRequest "Bad request", store, [])
  | some phone =>
    if phonePatternMatch phone then
      match f.getErr with
      | some msg => (.serverError msg, store, [])
      | none =>
        if (store (otpKey phone)).getD "" = "" then
          if f.genErr then
            (.serverError "Failed to generate OTP", store, [])
          else
            match f.setErr with
            | some msg =>
                (.serverError msg, store,
                  [("otp", ⟨"+993" ++ phone, otpMessage (generateOTP n)⟩)])
            | none =>
                (.okTrue, storeSet store (otpKey phone) (generateOTP n),
                  [("otp", ⟨"+993" ++ phone, otpMessage (generateOTP n)⟩)])
        else
          (.okFalse "OTP already sent. Please wait.", store, [])
    else
      (.badRequest "Bad request", store, [])

/-- The Compare handler (POST /compare). body is the parsed request body
(phone and submitted pass), none when JSON binding fails. -/
def Compare (f : Faults) (store : Store) (body : Option (String × String)) :
    HttpOutcome × Store × List Event :=
  match body with
  | none => (.badRequest "Bad request", store, [])
  | some (phone, pass) =>
    match f.getErr with
    | some msg => (.serverError msg, store, [])
    | none =>
      match store (otpKey phone) with
      | none => (.okFalse "OTP expired", store, [])
      | some cached =>
        if pass ≠ cached then
          (.okFalse "Invalid OTP", store, [])
        else
          match f.delErr with
          | some msg => (.serverError msg, store, [])
          | none => (.okTrue, storeDel store (otpKey phone), [])

/-- The SendSMS handler (POST /send-sms). It touches no store; the result
is the HTTP outcome and the broadcast events of the call. -/
def SendSMS (body : Option (String × String)) : HttpOutcome × List Event :=
  match body with
  | none => (.badRequest "Bad request", [])
  | some (phone, message) =>
    if sendSMSPatternMatch phone then
      let trimmed :=
        if ("+993".data).isPrefixOf phone.data then String.mk (phone.data.drop 4)
        else phone
      (.okSend "Message sent" ("+993" ++ trimmed) message,
        [("otp", ⟨"+993" ++ trimmed, message⟩)])
    else
      (.badRequest "Bad request", [])

/-- Two OTP calls in sequence for the same phone in a fault-free
environment: the two outcomes, the final store, and all events broadcast
across both calls. -/
def issueTwice (store : Store) (phone : String) (n1 n2 : Nat) :
    HttpOutcome × HttpOutcome × Store × List Event :=
  match OTP noFaults store (some phone) n1 with
  | (o1, s1, e1) =>
    match OTP noFaults s1 (some phone) n2 with
    | (o2, s2, e2) => (o1, o2, s2, e1 ++ e2)

/-- The connection registry: the client map of the Manager, as an
association list from connection id to the busy flag. -/
abbrev Registry := List (String × Bool)

/-- Map insert: overwrite the entry for the id if present, else add it. -/
def setClient (id : String) (b : Bool) : Registry → Registry
  | [] => [(id, b)]
  | (k, v) :: rest =>
      if k = id then (id, b) :: rest else (k, v) :: setClient id b rest

/-- Lookup of a client busy flag by id. -/
def lookupClient (id : String) : Registry → Option Bool
  | [] => none
  | (k, v) :: rest => if k = id then some v else lookupClient id rest

/-- The OnConnect callback: insert the client with busy set to false. -/
def onConnect (id : String) (r : Registry) : Registry := setClient id false r

/-- The OnDisconnect callback: delete the client entry if present. -/
def onDisconnect (id : String) (r : Registry) : Registry :=
  r.filter (fun p => p.1 ≠ id)

/-- The sended-event callback: mark the client idle when it is known,
otherwise leave the registry unchanged. -/
def onSended (id : String) (r : Registry) : Registry :=
  match lookupClient id r with
  | some _ => setClient id false r
  | none => r

/-- The live connection count of the registry. -/
def clientCount (r : Registry) : Nat := r.length

/-- The origin check installed on both transports of the Socket.IO
server: allow an empty origin, otherwise require membership in the
configured allow-set. -/
def checkOrigin (allowed : List String) (origin : String) : Bool :=
  if origin = "" then true else allowed.contains origin

/-- A connection attempt: the transport runs checkOrigin first and only a
permitted connection reaches OnConnect and hence the registry. Returns
whether the attempt was allowed and the registry afterwards. -/
def attemptConnect (allowed : List String) (origin id : String)
    (r : Registry) : Bool × Registry :=
  if checkOrigin allowed origin then (true, onConnect id r) else (false, r)

/-- Events observed by the registry and gateway. -/
inductive RegEvent where
  | connect (id : String)
  | disconnect (id : String)
  | sended (id : String)
  | broadcast (event : String) (data : OTPEvent)
deriving DecidableEq, Repr

/-- One registry transition. Broadcast never touches the client map. -/
def regStep (r : Registry) (e : RegEvent) : Registry :=
  match e with
  | .connect id => onConnect id r
  | .disconnect id => onDisconnect id r
  | .sended id => onSended id r
  | .broadcast _ _ => r

/-- The registry reached from the empty initial state by a trace. -/
def runEvents (es : List RegEvent) : Registry := es.foldl regStep []

/-- Every client of the registry is marked idle. -/
def allIdle (r : Registry) : Prop := ∀ p ∈ r, p.2 = false

/-- A concrete store holding one code entry, used by the witnesses. -/
def store1 : Store := fun k => if k = otpKey "61234567" then some "12345" else none

/-- A generated code is never the empty string, because it is the decimal
string of a number of at least 10000. -/
theorem generateOTP_ne_empty (n : Nat) : generateOTP n ≠ "" := by
  unfold generateOTP natDecimalString
  rw [if_neg (by omega : ¬ n + 10000 = 0)]
  have hne : natToDigitsAux (n + 10000) (n + 10000) ≠ [] := by
    obtain ⟨k, hk⟩ : ∃ k, n + 10000 = k + 1 := ⟨n + 9999, by omega⟩
    rw [hk]
    simp [natToDigitsAux]
  intro hcontra
  apply hne
  simpa using congrArg String.data hcontra

/-- With enough fuel, natToDigitsAux produces the reversed base-10 digit
list of its argument, rendered as characters. -/
theorem natToDigitsAux_eq (n : Nat) : ∀ (f : Nat), n ≤ f →
    natToDigitsAux f n = ((Nat.digits 10 n).map digitChar).reverse := by
  induction n using Nat.strong_induction_on with
  | _ n ih =>
    intro f hf
    rcases n with _ | m
    · simp [natToDigitsAux]
    · obtain ⟨g, rfl⟩ : ∃ g, f = g + 1 := ⟨f - 1, by omega⟩
      have hdiv : (m + 1) / 10 < m + 1 := Nat.div_lt_self (Nat.succ_pos m) (by norm_num)
      have hrec := ih ((m + 1) / 10) hdiv g (by omega)
      show natToDigitsAux g ((m + 1) / 10) ++ [digitChar ((m + 1) % 10)] = _
      rw [hrec, Nat.digits_def' (by norm_num : (1 : Nat) < 10) (Nat.succ_pos m)]
      simp

/-- C1: for every phone whose stored code equals the submitted value,
Compare returns the verified outcome and deletes the entry, and an
immediately subsequent Compare for the same phone and code returns the
expired outcome. -/
theorem compare_verified_then_expired (store : Store) (phone pass : String)
    (h : store (otpKey phone) = some pass) :
    (Compare noFaults store (some (phone, pass))).1 = .okTrue ∧
    (Compare noFaults store (some (phone, pass))).2.1 (otpKey phone) = none ∧
    (Compare noFaults ((Compare noFaults store (some (phone, pass))).2.1)
        (some (phone, pass))).1 = .okFalse "OTP expired" := by
  simp [Compare, noFaults, h, storeDel]

theorem compare_verified_then_expired_witness :
    (Compare noFaults store1 (some ("61234567", "12345"))).1 = .okTrue ∧
    (Compare noFaults store1 (some ("61234567", "12345"))).2.1 (otpKey "61234567") = none ∧
    (Compare noFaults ((Compare noFaults store1 (some ("61234567", "12345"))).2.1)
        (some ("61234567", "12345"))).1 = .okFalse "OTP expired" :=
  compare_verified_then_expired store1 "61234567" "12345" (by decide)

/-- C2: when the store already holds a live (nonempty) code for a valid
phone, the OTP handler returns the already-pending outcome, broadcasts
nothing and leaves the store unchanged; consequently two back-to-back
issues against an absent entry end with the already-pending outcome and
broadcast exactly one delivery event in total. -/
theorem otp_already_pending (store : Store) (phone v : String) (n : Nat)
    (hp : phonePatternMatch phone = true)
    (hv : store (otpKey phone) = some v) (hne : v ≠ "") :
    OTP noFaults store (some phone) n
        = (.okFalse "OTP already sent. Please wait.", store, []) ∧
    ∀ (store0 : Store) (n1 n2 : Nat), store0 (otpKey phone) = none →
      (issueTwice store0 phone n1 n2).2.1
          = .okFalse "OTP already sent. Please wait." ∧
      (issueTwice store0 phone n1 n2).2.2.2.length = 1 := by
  constructor
  · simp [OTP, noFaults, hp, hv, hne]
  · intro store0 n1 n2 h0
    have h1 : OTP noFaults store0 (some phone) n1
        = (.okTrue, storeSet store0 (otpKey phone) (generateOTP n1),
           [("otp", ⟨"+993" ++ phone, otpMessage (generateOTP n1)⟩)]) := by
      simp [OTP, noFaults, hp, h0]
    have hkey : (storeSet store0 (otpKey phone) (generateOTP n1)) (otpKey phone)
        = some (generateOTP n1) := by
      simp [storeSet]
    have h2 : OTP noFaults (storeSet store0 (otpKey phone) (generateOTP n1))
        (some phone) n2
        = (.okFalse "OTP already sent. Please wait.",
           storeSet store0 (otpKey phone) (generateOTP n1), []) := by
      simp [OTP, noFaults, hp, hkey, generateOTP_ne_empty n1]
    simp [issueTwice, h1, h2]

theorem otp_already_pending_witness :
    OTP noFaults store1 (some "61234567") 7
        = (.okFalse "OTP already sent. Please wait.", store1, []) ∧
    (issueTwice emptyStore "61234567" 3 4).2.1
        = .okFalse "OTP already sent. Please wait." ∧
    (issueTwice emptyStore "61234567" 3 4).2.2.2.length = 1 :=
  have h := otp_already_pending store1 "61234567" "12345" 7 (by decide)
    (by decide) (by decide)
  ⟨h.1, h.2 emptyStore 3 4 rfl⟩

/-- C3: a wrong submitted value makes Compare return the invalid outcome
with the store untouched, and a later Compare with the stored code on
that same store still returns the verified outcome. -/
theorem compare_invalid_keeps_entry (store : Store) (phone stored submitted : String)
    (h : store (otpKey phone) = some stored) (hne : submitted ≠ stored) :
    Compare noFaults store (some (phone, submitted))
        = (.okFalse "Invalid OTP", store, []) ∧
    (Compare noFaults store (some (phone, stored))).1 = .okTrue := by
  constructor
  · simp [Compare, noFaults, h, hne]
  · simp [Compare, noFaults, h]

theorem compare_invalid_keeps_entry_witness :
    Compare noFaults store1 (some ("61234567", "54321"))
        = (.okFalse "Invalid OTP", store1, []) ∧
    (Compare noFaults store1 (some ("61234567", "12345"))).1 = .okTrue :=
  compare_invalid_keeps_entry store1 "61234567" "12345" "54321" (by decide) (by decide)

/-- C4: for every admissible random draw, the generated code as a number
lies in the closed range 10000 to 99999, its decimal string has exactly
five characters, and its first character is not the zero digit. -/
theorem generateOTP_range_and_digits (n : Nat) (h : n < 90000) :
    10000 ≤ n + 10000 ∧ n + 10000 ≤ 99999 ∧
    (generateOTP n).length = 5 ∧ (generateOTP n).data.head? ≠ some '0' := by
  have hm0 : n + 10000 ≠ 0 := by omega
  have hdig : generateOTP n
      = String.mk (((Nat.digits 10 (n + 10000)).map digitChar).reverse) := by
    unfold generateOTP natDecimalString
    rw [if_neg hm0, natToDigitsAux_eq (n + 10000) (n + 10000) (le_refl _)]
  have hlow : (10 : Nat) ^ 4 ≤ n + 10000 := by
    have hp : (10 : Nat) ^ 4 = 10000 := by norm_num
    omega
  have hhigh : n + 10000 < (10 : Nat) ^ (4 + 1) := by
    have hp : (10 : Nat) ^ (4 + 1) = 100000 := by norm_num
    omega
  have hlen : (Nat.digits 10 (n + 10000)).length = 5 := by
    rw [Nat.digits_len 10 (n + 10000) (by norm_num) hm0,
      Nat.log_eq_of_pow_le_of_lt_pow hlow hhigh]
  have hnil : Nat.digits 10 (n + 10000) ≠ [] :=
    Nat.digits_ne_nil_iff_ne_zero.mpr hm0
  refine ⟨by omega, by omega, ?_, ?_⟩
  · rw [hdig]
    show (((Nat.digits 10 (n + 10000)).map digitChar).reverse).length = 5
    rw [List.length_reverse, List.length_map, hlen]
  · rw [hdig]
    show (((Nat.digits 10 (n + 10000)).map digitChar).reverse).head? ≠ some '0'
    rw [List.head?_reverse, List.getLast?_map,
      List.getLast?_eq_getLast _ hnil]
    have hlast := Nat.getLast_digit_ne_zero 10 hm0
    have hmem : (Nat.digits 10 (n + 10000)).getLast hnil ∈ Nat.digits 10 (n + 10000) :=
      List.getLast_mem hnil
    have hlt : (Nat.digits 10 (n + 10000)).getLast hnil < 10 :=
      Nat.digits_lt_base (by norm_num) hmem
    simp only [Option.map_some']
    intro hcontra
    apply hlast
    have hchar : digitChar ((Nat.digits 10 (n + 10000)).getLast hnil) = '0' :=
      Option.some.inj hcontra
    set d := (Nat.digits 10 (n + 10000)).getLast hnil with hd
    interval_cases d
    · rfl
    all_goals (exact absurd hchar (by decide))

theorem generateOTP_range_and_digits_witness :
    10000 ≤ 12345 + 10000 ∧ 12345 + 10000 ≤ 99999 ∧
    (generateOTP 12345).length = 5 ∧ (generateOTP 12345).data.head? ≠ some '0' :=
  generateOTP_range_and_digits 12345 (by decide)

/-- C5 counterexample: the phone 612345678 has nine digits, so it does
not have the exact shape the specification describes for SendSMS, yet
the handler accepts it and broadcasts a delivery event, because the
sendSMSPattern regex the code checks has no end anchor. -/
theorem sendSMS_trailing_digit_accepted :
    specSendSMSShape "612345678" = false ∧
    SendSMS (some ("612345678", "hello"))
      = (.okSend "Message sent" "+993612345678" "hello",
         [("otp", ⟨"+993612345678", "hello"⟩)]) := by
  constructor
  · decide
  · decide

/-- C5 (amended): for every phone string that does not begin with an
optional +993 country prefix followed by a 6, a digit from 1 to 5 and
six more digits, SendSMS rejects the request as a validation failure and
broadcasts nothing; trailing characters after that shape are accepted. -/
theorem sendSMS_rejects_nonmatching (phone message : String)
    (h : sendSMSPatternMatch phone = false) :
    SendSMS (some (phone, message)) = (.badRequest "Bad request", []) := by
  simp [SendSMS, h]

theorem sendSMS_rejects_nonmatching_witness :
    SendSMS (some ("123", "hi")) = (.badRequest "Bad request", []) :=
  sendSMS_rejects_nonmatching "123" "hi" (by decide)

/-- C6: a connection attempt is allowed exactly when its origin is empty
or belongs to the configured allow-set, and a denied attempt leaves the
registry untouched. -/
theorem checkOrigin_allow_iff (allowed : List String) (origin id : String)
    (r : Registry) :
    ((attemptConnect allowed origin id r).1 = true ↔
        origin = "" ∨ origin ∈ allowed) ∧
    ((attemptConnect allowed origin id r).1 = false →
        attemptConnect allowed origin id r = (false, r)) := by
  by_cases h : origin = ""
  · constructor
    · simp [attemptConnect, checkOrigin, h]
    · simp [attemptConnect, checkOrigin, h]
  · by_cases hm : origin ∈ allowed
    · constructor
      · simp [attemptConnect, checkOrigin, h, hm]
      · simp [attemptConnect, checkOrigin, h, hm]
    · constructor
      · simp [attemptConnect, checkOrigin, h, hm]
      · simp [attemptConnect, checkOrigin, h, hm]

theorem checkOrigin_allow_iff_witness :
    ((attemptConnect ["http://a.example"] "http://evil.example" "c1"
        [("w1", false)]).1 = true ↔
      "http://evil.example" = "" ∨ "http://evil.example" ∈ ["http://a.example"]) ∧
    ((attemptConnect ["http://a.example"] "http://evil.example" "c1"
        [("w1", false)]).1 = false →
      attemptConnect ["http://a.example"] "http://evil.example" "c1" [("w1", false)]
        = (false, [("w1", false)])) :=
  checkOrigin_allow_iff ["http://a.example"] "http://evil.example" "c1" [("w1", false)]

/-- Inserting twice for the same id keeps the map size of the second
insert equal to that of the first. -/
theorem setClient_setClient_length (id : String) (b c : Bool) (r : Registry) :
    (setClient id b (setClient id c r)).length = (setClient id c r).length := by
  induction r with
  | nil => simp [setClient]
  | cons p rest ih =>
    by_cases h : p.1 = id
    · simp [setClient, h]
    · simp [setClient, h, ih]

/-- C7: registering the same connection id twice yields the same live
count as registering it once. -/
theorem register_idempotent_count (r : Registry) (id : String) :
    clientCount (onConnect id (onConnect id r)) = clientCount (onConnect id r) := by
  simpa [clientCount, onConnect] using setClient_setClient_length id false false r

theorem register_idempotent_count_witness :
    clientCount (onConnect "c1" (onConnect "c1" [("a", false)]))
      = clientCount (onConnect "c1" [("a", false)]) :=
  register_idempotent_count [("a", false)] "c1"

/-- C8: when the persist step fails for a valid phone with no pending
entry, the OTP handler has already broadcast exactly one delivery event,
returns a server error, and the store is left unchanged. -/
theorem otp_broadcast_before_persist (store : Store) (phone msg : String) (n : Nat)
    (hp : phonePatternMatch phone = true)
    (habs : store (otpKey phone) = none) :
    OTP (setFailFaults msg) store (some phone) n
      = (.serverError msg, store,
         [("otp", ⟨"+993" ++ phone, otpMessage (generateOTP n)⟩)]) := by
  simp [OTP, setFailFaults, hp, habs]

theorem otp_broadcast_before_persist_witness :
    OTP (setFailFaults "redis down") emptyStore (some "61234567") 0
      = (.serverError "redis down", emptyStore,
         [("otp", ⟨"+993" ++ "61234567", otpMessage (generateOTP 0)⟩)]) :=
  otp_broadcast_before_persist emptyStore "61234567" "redis down" 0 (by decide) rfl

/-- Inserting an idle client keeps every client idle. -/
theorem allIdle_setClient (id : String) (r : Registry) (h : allIdle r) :
    allIdle (setClient id false r) := by
  induction r with
  | nil =>
    intro p hp
    simp [setClient] at hp
    simp [hp]
  | cons q rest ih =>
    have hq : q.2 = false := h q (by simp)
    have hrest : allIdle rest := fun p hp => h p (by simp [hp])
    intro p hp
    by_cases hk : q.1 = id
    · simp [setClient, hk] at hp
      rcases hp with hp | hp
      · simp [hp]
      · exact hrest p hp
    · simp [setClient, hk] at hp
      rcases hp with hp | hp
      · simp [hp, hq]
      · exact ih hrest p hp

/-- Every registry transition preserves the all-idle invariant. -/
theorem allIdle_step (r : Registry) (e : RegEvent) (h : allIdle r) :
    allIdle (regStep r e) := by
  cases e with
  | connect id => exact allIdle_setClient id r h
  | disconnect id =>
    intro p hp
    exact h p (List.mem_of_mem_filter hp)
  | sended id =>
    show allIdle (onSended id r)
    unfold onSended
    cases hlk : lookupClient id r with
    | none => exact h
    | some b => exact allIdle_setClient id r h
  | broadcast ev data => exact h

/-- C9: in every state of the connection registry reachable from the
empty initial state, every registered connection has its busy flag equal
to false. -/
theorem registry_busy_never_true (es : List RegEvent) : allIdle (runEvents es) := by
  have main : ∀ (es : List RegEvent) (r : Registry), allIdle r →
      allIdle (es.foldl regStep r) := by
    intro es
    induction es with
    | nil => intro r h; exact h
    | cons e rest ih =>
      intro r h
      exact ih (regStep r e) (allIdle_step r e h)
  exact main es [] (by intro p hp; cases hp)

theorem registry_busy_never_true_witness :
    allIdle (runEvents
      [RegEvent.connect "a", RegEvent.sended "a",
       RegEvent.broadcast "otp" ⟨"+99361234567", "m"⟩]) :=
  registry_busy_never_true
    [RegEvent.connect "a", RegEvent.sended "a",
     RegEvent.broadcast "otp" ⟨"+99361234567", "m"⟩]

/-- C10: Compare performs no phone-shape validation: for any phone
string, the outcome is never the client-error outcome, an absent entry
under the key built from the fixed prefix and the raw phone yields the
expired outcome, the outcome depends on the store only through that key,
and only a body that fails to parse is rejected before the store. -/
theorem compare_no_phone_validation (store : Store) (phone pass : String) :
    (∀ (f : Faults) (m : String),
        (Compare f store (some (phone, pass))).1 ≠ .badRequest m) ∧
    (store (otpKey phone) = none →
      Compare noFaults store (some (phone, pass))
        = (.okFalse "OTP expired", store, [])) ∧
    (∀ store2 : Store, store2 (otpKey phone) = store (otpKey phone) →
      (Compare noFaults store2 (some (phone, pass))).1
        = (Compare noFaults store (some (phone, pass))).1) ∧
    (∀ f : Faults, Compare f store none = (.badRequest "Bad request", store, [])) := by
  refine ⟨?_, ?_, ?_, ?_⟩
  · intro f m
    cases hg : f.getErr with
    | some e => simp [Compare, hg]
    | none =>
      cases hs : store (otpKey phone) with
      | none => simp [Compare, hg, hs]
      | some cached =>
        by_cases hp : pass = cached
        · cases hd : f.delErr <;> simp [Compare, hg, hs, hp, hd]
        · simp [Compare, hg, hs, hp]
  · intro h
    simp [Compare, noFaults, h]
  · intro store2 h2
    simp only [Compare, noFaults]
    rw [h2]
    cases hs : store (otpKey phone) with
    | none => simp
    | some cached =>
      by_cases hp : pass = cached <;> simp [hp]
  · intro f
    simp [Compare]

theorem compare_no_phone_validation_witness :
    (Compare noFaults emptyStore (some ("not-a-phone", "x"))).1
        ≠ .badRequest "Bad request" ∧
    Compare noFaults emptyStore (some ("not-a-phone", "x"))
        = (.okFalse "OTP expired", emptyStore, []) ∧
    Compare noFaults emptyStore none = (.badRequest "Bad request", emptyStore, []) :=
  have h := compare_no_phone_validation emptyStore "not-a-phone" "x"
  ⟨h.1 noFaults "Bad request", h.2.1 rfl, h.2.2.2 noFaults⟩
